import Mathlib

/-!
Shallow embedding of the optimistic-update controller in `src/src/App.tsx`
(`UseOptimisticComponent` and its commit collaborator `updateNameWithReject`).

The component state fields map as follows:
* `originData`     — the ConfirmedValue (`useState('')`);
* `optimisticName` — the TentativeValue (`useOptimistic(originData)`);
* `error`          — the error message string (`useState("")`); the spec's
  ErrorFlag is "error is a truthy (non-empty) string", since the UI renders
  the error indicator via `{error && ...}`.

`onUpdateNameHandler` runs an async closure that captures the current input
value `name`. The closure has a synchronous prefix (before the `await`) and a
completion suffix (after the promise settles), so it is embedded as two pure
state transformers, `onUpdateNameStart` and `onUpdateNameComplete`, both
parameterised by the captured candidate `name`. A promise settlement is either
a fulfillment carrying a value or a rejection carrying no payload (the source
calls `reject()` with no argument).
-/

/-- Settlement of a JavaScript promise of type `α`: it either fulfills with a
value or rejects (in this codebase, with no payload). -/
inductive Outcome (α : Type) where
  | fulfilled : α → Outcome α
  | rejected : Outcome α
deriving DecidableEq, BEq

/-- Embedding of `updateNameWithReject(name, timer)` from `src/src/App.tsx`
lines 46–54. After `timer` milliseconds it reads `Date.now()`; the parameter
`now` is that timestamp at resolution time. The source computes
`value = Date.now() % 2`, calls `reject()` when `value === 0`, and otherwise
calls `resolve(!value)` — JavaScript `!value` on a number is `value === 0`. -/
def updateNameWithReject (name : String) (timer : Nat) (now : Nat) : Outcome Bool :=
  let value := now % 2
  if value = 0 then .rejected else .fulfilled (value == 0)

/-- State of `UseOptimisticComponent`: ConfirmedValue, TentativeValue and the
error message string. -/
structure OptimisticState where
  originData : String
  optimisticName : String
  error : String
deriving DecidableEq, BEq

/-- The spec's ErrorFlag: the error indicator is rendered when `error` is a
truthy (non-empty) string (`{error && <div>Error</div>}`). -/
def errorFlag (s : OptimisticState) : Bool := s.error != ""

/-- Synchronous prefix of the async closure in `onUpdateNameHandler`
(`src/src/App.tsx` lines 237–248), run when `requestUpdate(name)` is issued,
before the `await`: `setOptimisticName(name)`. No other setter runs here. -/
def onUpdateNameStart (s : OptimisticState) (name : String) : OptimisticState :=
  { s with optimisticName := name }

/-- Completion suffix of the async closure in `onUpdateNameHandler`, run when
`updateNameWithReject(name, 500)` settles. A fulfillment (with any value — the
resolved boolean is never inspected) takes the `try` path:
`setError(""); setOriginData(name)`. A rejection takes the `catch` path, whose
only statement is `setError("error")`; the exception is swallowed, so the
completion is a total function on states and nothing is re-raised. -/
def onUpdateNameComplete (s : OptimisticState) (name : String) :
    Outcome Bool → OptimisticState
  | .fulfilled _ => { s with error := "", originData := name }
  | .rejected => { s with error := "error" }

/-- One full non-overlapping commit attempt for candidate `name` with
settlement `o`: the start phase followed by the completion phase. -/
def runAttempt (s : OptimisticState) (name : String) (o : Outcome Bool) :
    OptimisticState :=
  onUpdateNameComplete (onUpdateNameStart s name) name o

/-- Observable transitions of the controller: an attempt starting for a
candidate, or an attempt for a candidate completing with a settlement.
Attempts may overlap, so starts and completions interleave freely. -/
inductive Event where
  | start : String → Event
  | complete : String → Outcome Bool → Event

/-- Apply one event to the component state. -/
def step (s : OptimisticState) : Event → OptimisticState
  | .start n => onUpdateNameStart s n
  | .complete n o => onUpdateNameComplete s n o

/-- Apply a sequence of events in order. -/
def run (s : OptimisticState) : List Event → OptimisticState
  | [] => s
  | e :: es => run (step s e) es

/-- C1: the claim counts a falsy resolution as a failure, but the handler never
inspects the resolved value: any fulfillment takes the success path. Concrete
refutation: from the initial state, `requestUpdate("alice")` whose collaborator
settles at odd timestamp 1 — `updateNameWithReject` resolves with `false`, a
falsy value — ends with ErrorFlag false (claim says true) and ConfirmedValue
changed from `""` to `"alice"` (claim says unchanged). -/
theorem C1_counterexample :
    errorFlag (runAttempt ⟨"", "", ""⟩ "alice"
      (updateNameWithReject "alice" 500 1)) = false ∧
    (runAttempt ⟨"", "", ""⟩ "alice"
      (updateNameWithReject "alice" 500 1)).originData = "alice" ∧
    ((runAttempt ⟨"", "", ""⟩ "alice"
      (updateNameWithReject "alice" 500 1)).originData == "") = false := by
  decide

/-- C1 (amended): for every state and candidate `v`, if the commit collaborator
rejects, then once the attempt completes ErrorFlag is true and ConfirmedValue
equals its value from before the attempt. (A falsy resolution is treated as
success by the code, so it is dropped from the failure condition.) -/
theorem C1_rejection_preserves_confirmed (s : OptimisticState) (v : String) :
    errorFlag (runAttempt s v .rejected) = true ∧
    (runAttempt s v .rejected).originData = s.originData := by
  exact ⟨rfl, rfl⟩

/-- C2: refutation. The handler contains no `setError` before the `await`: the
start phase only sets the tentative value. Concretely, starting a new attempt
from the Failed state `⟨"bob", "carol", "error"⟩` leaves ErrorFlag true, not
false as the claim requires. -/
theorem C2_counterexample :
    errorFlag (onUpdateNameStart ⟨"bob", "carol", "error"⟩ "carol") = true := by
  decide

/-- C2 (amended): a call to `requestUpdate(v)` leaves ErrorFlag unchanged at
the start of the attempt (in particular it stays true when the previous
attempt failed); ErrorFlag is updated only when the attempt completes. -/
theorem C2_error_unchanged_at_start (s : OptimisticState) (v : String) :
    errorFlag (onUpdateNameStart s v) = errorFlag s := by
  rfl

/-- C3: for every state, candidate `v` and resolved value `b`, if the commit
collaborator resolves (in particular resolves truthy), then once the attempt
completes ConfirmedValue equals `v` and ErrorFlag is false. -/
theorem C3_success_commits (s : OptimisticState) (v : String) (b : Bool) :
    (runAttempt s v (.fulfilled b)).originData = v ∧
    errorFlag (runAttempt s v (.fulfilled b)) = false := by
  exact ⟨rfl, rfl⟩

/-- C4: when `updateNameWithReject(name, timer)` settles at timestamp `now`, it
rejects (with no payload) exactly when `now % 2 = 0`, and otherwise resolves
with the value `false`; in particular it never resolves with a truthy value. -/
theorem C4_collaborator_outcome (name : String) (timer : Nat) (now : Nat) :
    updateNameWithReject name timer now =
      if now % 2 = 0 then .rejected else .fulfilled false := by
  unfold updateNameWithReject
  rcases Nat.eq_zero_or_pos (now % 2) with h | h
  · simp [h]
  · have h2 : now % 2 = 1 := by omega
    simp [h2]

/-- C5: for every state and candidate `v`, immediately after `requestUpdate(v)`
is issued — the synchronous start phase, before the asynchronous commit step
completes — TentativeValue equals `v`. -/
theorem C5_tentative_immediate (s : OptimisticState) (v : String) :
    (onUpdateNameStart s v).optimisticName = v := by
  rfl

/-- C6: ConfirmedValue is modified by no transition except the successful
completion of an attempt, and that completion sets it to exactly the candidate
that attempt was given: the start of an attempt and a failed (rejected)
completion both leave ConfirmedValue unchanged, while a fulfilled completion
for candidate `v` sets it to `v`. -/
theorem C6_confirmed_only_on_success (s : OptimisticState) (v : String) :
    (onUpdateNameStart s v).originData = s.originData ∧
    (onUpdateNameComplete s v .rejected).originData = s.originData ∧
    ∀ b : Bool, (onUpdateNameComplete s v (.fulfilled b)).originData = v := by
  exact ⟨rfl, rfl, fun _ => rfl⟩

/-- C7: when the attempt for candidate `v` fails (the collaborator rejects),
the resulting state differs from the pre-attempt state only in the error field:
ConfirmedValue is unchanged and TentativeValue is still the failed candidate
`v`, not rolled back. The rejection is absorbed by the `catch` — the completion
is a total function on states, so nothing is re-raised to the caller. -/
theorem C7_failure_frame (s : OptimisticState) (v : String) :
    runAttempt s v .rejected =
      { s with optimisticName := v, error := "error" } := by
  rfl

/-- C8: the collaborator's settlement is not a deterministic function of its
inputs `(name, timer)`: for every pair of inputs, the invocation whose
resolution-time timestamp is even (0) rejects while the one whose timestamp is
odd (1) resolves with `false` — identical inputs, different outcomes. -/
theorem C8_outcome_depends_on_timestamp (name : String) (timer : Nat) :
    updateNameWithReject name timer 0 = .rejected ∧
    updateNameWithReject name timer 1 = .fulfilled false ∧
    (updateNameWithReject name timer 0 ==
      updateNameWithReject name timer 1) = false := by
  exact ⟨rfl, rfl, rfl⟩

/-- C9: idempotence — issuing `requestUpdate(v)` when ConfirmedValue already
equals `v`, where the attempt succeeds, leaves ConfirmedValue equal to `v`. -/
theorem C9_idempotent (s : OptimisticState) (v : String) (b : Bool)
    (h : s.originData = v) :
    (runAttempt s v (.fulfilled b)).originData = v := by
  rfl

/-- Witness for C9 at a concrete state with ConfirmedValue already `"alice"`. -/
theorem C9_idempotent_witness :
    (OptimisticState.mk "alice" "alice" "").originData = "alice" ∧
    (runAttempt (OptimisticState.mk "alice" "alice" "") "alice"
      (.fulfilled true)).originData = "alice" := by
  exact ⟨rfl, C9_idempotent (OptimisticState.mk "alice" "alice" "") "alice" true rfl⟩

/-- C10: overlapping attempts — `requestUpdate("x")` then `requestUpdate("y")`
before the first resolves, with the `"y"` attempt resolving first and the `"x"`
attempt resolving last. Whatever the `"y"` attempt's settlement `oy`, the final
state reflects `"x"`'s outcome: if the `"x"` attempt fulfills, ConfirmedValue
is `"x"` (not `"y"`, though `"y"` was requested last) and ErrorFlag is false;
if the `"x"` attempt rejects, ErrorFlag ends true. Neither completion is
serialized, cancelled or ignored as superseded: when `"y"` fulfills and the
later-resolving `"x"` rejects, ConfirmedValue is `"y"` — the superseded `"y"`
completion was still applied. -/
theorem C10_last_resolution_wins (s : OptimisticState) (oy : Outcome Bool)
    (b c : Bool) :
    (run s [.start "x", .start "y", .complete "y" oy,
        .complete "x" (.fulfilled b)]).originData = "x" ∧
    errorFlag (run s [.start "x", .start "y", .complete "y" oy,
        .complete "x" (.fulfilled b)]) = false ∧
    errorFlag (run s [.start "x", .start "y", .complete "y" oy,
        .complete "x" .rejected]) = true ∧
    (run s [.start "x", .start "y", .complete "y" (.fulfilled c),
        .complete "x" .rejected]).originData = "y" := by
  exact ⟨rfl, rfl, rfl, rfl⟩
